import Mathlib

/-!
Shallow embedding of `src/jira_tui/app.py` (jira-tui): a Textual TUI that
wraps the external `jira` CLI.  Pure string helpers model the Python string
methods used by the source (`str.strip`, `str.splitlines`, `" ".join`),
and the app's side effects (activity-log writes, panel writes, status and
configured updates) are modelled as explicit event traces.
-/

/-- Whitespace characters recognised by Python's `str.strip()` /
`str.splitlines()` family (ASCII whitespace plus the Unicode space and
line separators Python treats as space). -/
def pyIsSpace (c : Char) : Bool :=
  c = ' ' || c = '\t' || c = '\n' || c = '\r' ||
  c = '\x0b' || c = '\x0c' ||
  c = '\x1c' || c = '\x1d' || c = '\x1e' || c = '\x1f' ||
  c = '\x85' || c = '\xa0' ||
  c = ' ' ||
  (' ' ≤ c && c ≤ ' ') ||
  c = ' ' || c = ' ' || c = ' ' || c = ' ' || c = '　'

/-- Python `str.strip()` with no argument: removes leading and trailing
whitespace. -/
def pystrip (s : String) : String :=
  ⟨(((s.data.dropWhile pyIsSpace).reverse.dropWhile pyIsSpace).reverse)⟩

/-- Line-boundary characters of Python `str.splitlines()`. -/
def pyIsLineBreak (c : Char) : Bool :=
  c = '\n' || c = '\r' || c = '\x0b' || c = '\x0c' ||
  c = '\x1c' || c = '\x1d' || c = '\x1e' ||
  c = '\x85' || c = ' ' || c = ' '

/-- Worker for `pysplitlines`: walks the character list, accumulating the
current line in reverse; `\r\n` counts as a single boundary (the flag says
the previous character was an unaccompanied `\r`, so a directly following
`\n` is skipped); a trailing line-break does not produce a final empty
line. -/
def pysplitlinesGo : List Char → List Char → Bool → List String
  | [], acc, _ => if acc.isEmpty then [] else [⟨acc.reverse⟩]
  | c :: rest, acc, afterCR =>
      if afterCR && c == '\n' then pysplitlinesGo rest acc false
      else if c == '\r' then (⟨acc.reverse⟩ : String) :: pysplitlinesGo rest [] true
      else if pyIsLineBreak c then (⟨acc.reverse⟩ : String) :: pysplitlinesGo rest [] false
      else pysplitlinesGo rest (c :: acc) false

/-- Python `str.splitlines()`. -/
def pysplitlines (s : String) : List String :=
  pysplitlinesGo s.data [] false

/-- Python `" ".join(xs)`. -/
def joinSpace (xs : List String) : String :=
  String.intercalate " " xs

/-- Python truthiness of an `Optional[str]` value (`None` and `""` are
falsy), as used by the `if not key:` guards of the actions. -/
def pyTruthy : Option String → Bool
  | none => false
  | some s => !(s == "")

/-- `CommandResult` dataclass: container for stdout/stderr coming from
jira-cli (`command`, `stdout`, `stderr`, `returncode`). -/
structure CommandResult where
  command : List String
  stdout : String
  stderr : String
  returncode : Int
  deriving Repr, DecidableEq

/-- The `ok` property of `CommandResult`: `returncode == 0`. -/
def CommandResult.ok (r : CommandResult) : Bool :=
  r.returncode == 0

/-- Outcome of the attempt to spawn the subprocess: either the binary is
missing (`FileNotFoundError` from `asyncio.create_subprocess_exec`) or the
process ran and terminated with the given decoded stdout/stderr text and
return code. -/
inductive SubprocessOutcome where
  | notFound : SubprocessOutcome
  | completed (stdoutText stderrText : String) (returncode : Int) : SubprocessOutcome
  deriving Repr, DecidableEq

/-- Observable side effects of the app, in program order.  `logWrite s` is a
call `self._log(s)`; `panelDisplayOutput`, `panelShowError` and
`panelShowMessage` are the corresponding calls on the target panel;
`setStatus` and `setConfigured` are writes to the status widget text and the
`configured` reactive flag. -/
inductive Event where
  | logWrite (s : String) : Event
  | panelDisplayOutput (s : String) : Event
  | panelShowError (s : String) : Event
  | panelShowMessage (s : String) : Event
  | setStatus (s : String) : Event
  | setConfigured (b : Bool) : Event
  deriving Repr, DecidableEq

/-- What `_run_jira_command` does control-flow-wise: either the
`FileNotFoundError` is re-raised, or a `CommandResult` is returned. -/
inductive RunReturn where
  | raised : RunReturn
  | returned (r : CommandResult) : RunReturn
  deriving Repr, DecidableEq

/-- Trace of events plus the control-flow result of one `_run_jira_command`
call. -/
structure RunEffects where
  trace : List Event
  ret : RunReturn
  deriving Repr, DecidableEq

/-- The message of `_handle_missing_binary`. -/
def missingBinaryMessage : String :=
  "Unable to execute `jira`. Ensure jira-cli is installed and on PATH."

/-- `_handle_missing_binary`: logs the message and, when a target panel was
supplied, shows it there as an error. -/
def missingBinaryEvents (hasTarget : Bool) : List Event :=
  [Event.logWrite missingBinaryMessage] ++
    (if hasTarget then [Event.panelShowError missingBinaryMessage] else [])

/-- The failure message of `_handle_command_failure`:
`"Command '<joined argv>' exited with code <code>"`. -/
def failureMessage (command : List String) (returncode : Int) : String :=
  "Command '" ++ joinSpace command ++ "' exited with code " ++ toString returncode

/-- `_handle_command_failure`: always logs the failure message and, when a
target panel was supplied, shows it there as an error. -/
def commandFailureEvents (command : List String) (returncode : Int)
    (hasTarget : Bool) : List Event :=
  [Event.logWrite (failureMessage command returncode)] ++
    (if hasTarget then [Event.panelShowError (failureMessage command returncode)] else [])

/-- The `"$ " + " ".join(cmd)` echo emitted when `log_command` is true. -/
def cmdEcho (cmd : List String) (logCommand : Bool) : List Event :=
  if logCommand then [Event.logWrite ("$ " ++ joinSpace cmd)] else []

/-- The captured-mode body of `_run_jira_command`: prepend `"jira"`, echo the
command when `log_command`, spawn; on `FileNotFoundError` run
`_handle_missing_binary` and re-raise; otherwise strip the decoded
stdout/stderr, route non-empty stdout to the target panel (else the log),
always log non-empty stderr, build the `CommandResult`, and on a non-zero
return code run `_handle_command_failure`. -/
def runJiraCaptured (args : List String) (logCommand : Bool) (hasTarget : Bool)
    (out : SubprocessOutcome) : RunEffects :=
  let cmd := "jira" :: args
  match out with
  | SubprocessOutcome.notFound =>
      { trace := cmdEcho cmd logCommand ++ missingBinaryEvents hasTarget
        ret := RunReturn.raised }
  | SubprocessOutcome.completed stdoutText stderrText returncode =>
      let stdout := pystrip stdoutText
      let stderr := pystrip stderrText
      let outEvents : List Event :=
        if stdout ≠ "" then
          (if hasTarget then [Event.panelDisplayOutput stdout] else [Event.logWrite stdout])
        else []
      let errEvents : List Event :=
        if stderr ≠ "" then [Event.logWrite stderr] else []
      let result : CommandResult := ⟨cmd, stdout, stderr, returncode⟩
      let failEvents : List Event :=
        if result.ok then [] else commandFailureEvents cmd returncode hasTarget
      { trace := cmdEcho cmd logCommand ++ outEvents ++ errEvents ++ failEvents
        ret := RunReturn.returned result }

/-- Status strings set by `check_configuration`. -/
def checkingStatus : String := "Checking jira-cli configuration…"

/-- Status when the `jira` binary is missing. -/
def notInstalledStatus : String := "jira-cli (jira) is not installed or in PATH."

/-- Status on a successful probe. -/
def authenticatedStatus : String := "jira-cli is authenticated ✅"

/-- Status on a failing probe. -/
def configMissingStatus : String := "jira-cli configuration missing. Press 'g' to run jira init."

/-- Remediation hint logged when the binary is missing. -/
def installHint : String :=
  "Unable to find `jira` binary. Install https://github.com/ankitpokhrel/jira-cli"

/-- `check_configuration`: sets the status to the checking message, runs
`_run_jira_command(["me"])` (captured, echoed, no target); on
`FileNotFoundError` clears `configured`, sets the not-installed status and
logs the install hint; on return code 0 sets `configured`, the authenticated
status, and logs non-empty stdout; otherwise clears `configured`, sets the
configuration-missing status, and logs non-empty stderr. -/
def checkConfiguration (out : SubprocessOutcome) : List Event :=
  let run := runJiraCaptured ["me"] true false out
  Event.setStatus checkingStatus ::
    (run.trace ++
      match run.ret with
      | RunReturn.raised =>
          [Event.setConfigured false, Event.setStatus notInstalledStatus,
           Event.logWrite installHint]
      | RunReturn.returned r =>
          if r.returncode = 0 then
            [Event.setConfigured true, Event.setStatus authenticatedStatus] ++
              (if r.stdout ≠ "" then [Event.logWrite r.stdout] else [])
          else
            [Event.setConfigured false, Event.setStatus configMissingStatus] ++
              (if r.stderr ≠ "" then [Event.logWrite r.stderr] else []))

/-- The status-widget writes contained in a trace, in order. -/
def statusWrites (trace : List Event) : List String :=
  trace.filterMap fun e =>
    match e with
    | Event.setStatus s => some s
    | _ => none

/-- The `configured`-flag writes contained in a trace, in order. -/
def configuredWrites (trace : List Event) : List Bool :=
  trace.filterMap fun e =>
    match e with
    | Event.setConfigured b => some b
    | _ => none

/-- `IssuePanel.show_message`: the panel is cleared and each line of
`message.splitlines() or [""]` is written, so afterwards the panel content
is exactly that list of lines. -/
def showMessageLines (message : String) : List String :=
  match pysplitlines message with
  | [] => [""]
  | ls => ls

/-- `IssuePanel.show_error`: `show_message` of the text prefixed with
`"Error: "`. -/
def showErrorLines (message : String) : List String :=
  showMessageLines ("Error: " ++ message)

/-- `IssuePanel.display_output`: `show_message` of
`output.strip() or "No data returned."`. -/
def displayOutputLines (output : String) : List String :=
  showMessageLines (if pystrip output == "" then "No data returned." else pystrip output)

/-- `JiraTUIApp._log`: each line of `message.splitlines()` is appended to the
activity-log widget (note: no `or [""]` fallback here). -/
def logLines (message : String) : List String :=
  pysplitlines message

/-- Python's `value or None` on a string: `None` when the string is empty,
else the string itself. -/
def pyOrNone (s : String) : Option String :=
  if s == "" then none else some s

/-- `InputDialog._cancel` (the Cancel button): dismisses with `None`. -/
def cancelResolve : Option String := none

/-- `InputDialog._submit` (the Submit button): dismisses with
`value.strip() or None` where `value` is the raw input text. -/
def submitResolve (value : String) : Option String :=
  pyOrNone (pystrip value)

/-- `InputDialog._submit_enter` (submit-on-enter): dismisses with
`event.value.strip() or None`. -/
def enterResolve (value : String) : Option String :=
  pyOrNone (pystrip value)

/-- Observable behaviour of one action: how many prompt dialogs were opened,
the full argument vectors of the subprocess spawns attempted, and the event
trace. -/
structure ActionEffects where
  promptsOpened : Nat
  invocations : List (List String)
  trace : List Event
  deriving Repr, DecidableEq

/-- `action_search`: prompts for a JQL query; aborts when the result is
falsy; otherwise runs `issue list --jql <query> --plain` (no target panel),
swallowing `FileNotFoundError`. -/
def actionSearch (queryRes : Option String) (out : SubprocessOutcome) : ActionEffects :=
  match queryRes, pyTruthy queryRes with
  | _, false => ⟨1, [], []⟩
  | some query, true =>
      let run := runJiraCaptured ["issue", "list", "--jql", query, "--plain"] true false out
      ⟨1, [["jira", "issue", "list", "--jql", query, "--plain"]], run.trace⟩
  | none, true => ⟨1, [], []⟩

/-- `action_view_issue`: prompts for an issue key; aborts when falsy;
otherwise shows a loading message on the detail panel and runs
`issue view <key> --plain` with that panel as target, swallowing
`FileNotFoundError`. -/
def actionViewIssue (keyRes : Option String) (out : SubprocessOutcome) : ActionEffects :=
  match keyRes, pyTruthy keyRes with
  | _, false => ⟨1, [], []⟩
  | some key, true =>
      let run := runJiraCaptured ["issue", "view", key, "--plain"] true true out
      ⟨1, [["jira", "issue", "view", key, "--plain"]],
        Event.panelShowMessage ("Loading issue " ++ key ++ "…") :: run.trace⟩
  | none, true => ⟨1, [], []⟩

/-- `action_comment_issue`: prompts for the issue key, then for the comment
body; any falsy prompt result aborts before the next prompt / the command;
otherwise runs `issue comment add <key> --comment <body>` (no target),
swallowing `FileNotFoundError`, and on success logs a confirmation. -/
def actionCommentIssue (keyRes bodyRes : Option String)
    (out : SubprocessOutcome) : ActionEffects :=
  match keyRes, pyTruthy keyRes with
  | _, false => ⟨1, [], []⟩
  | none, true => ⟨1, [], []⟩
  | some key, true =>
      match bodyRes, pyTruthy bodyRes with
      | _, false => ⟨2, [], []⟩
      | none, true => ⟨2, [], []⟩
      | some comment, true =>
          let run := runJiraCaptured
            ["issue", "comment", "add", key, "--comment", comment] true false out
          let post : List Event :=
            match run.ret with
            | RunReturn.raised => []
            | RunReturn.returned r =>
                if r.ok then [Event.logWrite ("Comment added to " ++ key ++ ".")] else []
          ⟨2, [["jira", "issue", "comment", "add", key, "--comment", comment]],
            run.trace ++ post⟩

/-- `action_transition_issue`: prompts for the issue key, then for the target
state; any falsy prompt result aborts; otherwise runs
`issue transition <key> --state <state>` (no target), swallowing
`FileNotFoundError`, and on success logs a confirmation. -/
def actionTransitionIssue (keyRes stateRes : Option String)
    (out : SubprocessOutcome) : ActionEffects :=
  match keyRes, pyTruthy keyRes with
  | _, false => ⟨1, [], []⟩
  | none, true => ⟨1, [], []⟩
  | some key, true =>
      match stateRes, pyTruthy stateRes with
      | _, false => ⟨2, [], []⟩
      | none, true => ⟨2, [], []⟩
      | some state, true =>
          let run := runJiraCaptured
            ["issue", "transition", key, "--state", state] true false out
          let post : List Event :=
            match run.ret with
            | RunReturn.raised => []
            | RunReturn.returned r =>
                if r.ok then
                  [Event.logWrite ("Transitioned " ++ key ++ " to " ++ state ++ ".")]
                else []
          ⟨2, [["jira", "issue", "transition", key, "--state", state]],
            run.trace ++ post⟩

/-- Modelled from the spec: "waits for the subprocess to terminate, decodes
stdout/stderr as text, trims trailing whitespace" — trailing-only trimming
of whitespace, the reading claimed by C5 (the source itself uses Python's
two-sided `str.strip()`). -/
def pyRstrip (s : String) : String :=
  ⟨(s.data.reverse.dropWhile pyIsSpace).reverse⟩

/-! Helper lemmas shared by the claim theorems. -/

/-- A `pysplitlinesGo` run over a non-empty input (or with a non-empty
accumulator) produces at least one line. -/
theorem pysplitlinesGo_ne_nil : ∀ (cs acc : List Char),
    cs ≠ [] ∨ acc ≠ [] → pysplitlinesGo cs acc false ≠ []
  | [], acc, h => by
      have hacc : acc ≠ [] := h.resolve_left (fun hne => hne rfl)
      match acc, hacc with
      | a :: as, _ => simp [pysplitlinesGo]
  | c :: rest, acc, _ => by
      by_cases hc : (c == '\r') = true
      · simp [pysplitlinesGo, hc]
      · by_cases hb : pyIsLineBreak c
        · simp [pysplitlinesGo, hc, hb]
        · have h := pysplitlinesGo_ne_nil rest (c :: acc) (Or.inr (by simp))
          simpa [pysplitlinesGo, hc, hb] using h

/-- A non-empty string splits into at least one line. -/
theorem pysplitlines_ne_nil (s : String) (h : s ≠ "") : pysplitlines s ≠ [] := by
  apply pysplitlinesGo_ne_nil
  left
  intro hd
  exact h (String.ext hd)

/-- C5 (counterexample): the source uses Python's two-sided `str.strip()`,
so for decoded stdout `"  x\n"` the `CommandResult.stdout` field is `"x"`,
not the trailing-only trim `"  x"` the claim describes: leading whitespace
is not preserved. -/
theorem c5_counterexample :
    (runJiraCaptured ["me"] true false (.completed "  x\n" " e " 0)).ret
        = RunReturn.returned ⟨["jira", "me"], "x", "e", 0⟩
  ∧ pyRstrip "  x\n" = "  x"
  ∧ pyRstrip " e " = " e"
  ∧ ("x" : String) ≠ "  x" := by
  refine ⟨by decide, by decide, by decide, by decide⟩

/-- C5 (amended): for every captured-mode invocation, the `stdout` and
`stderr` fields of the returned `CommandResult` equal the subprocess's
decoded text output with BOTH leading and trailing whitespace trimmed
(Python `str.strip()`), and the `command` field is the argv with `"jira"`
prepended. -/
theorem c5_result_strip_amended (args : List String) (logCmd hasTarget : Bool)
    (so se : String) (rc : Int) :
    (runJiraCaptured args logCmd hasTarget (.completed so se rc)).ret
      = RunReturn.returned ⟨"jira" :: args, pystrip so, pystrip se, rc⟩ := by
  rfl

/-- C9: for every captured-mode invocation whose trimmed stderr is
non-empty, the trimmed stderr is logged to the activity log, regardless of
the exit code and of whether a target panel was supplied. -/
theorem c9_stderr_logging (args : List String) (logCmd hasTarget : Bool)
    (so se : String) (rc : Int) (h : pystrip se ≠ "") :
    Event.logWrite (pystrip se) ∈
      (runJiraCaptured args logCmd hasTarget (.completed so se rc)).trace := by
  simp [runJiraCaptured, h]

/-- C9 witness: concrete failing run with stderr `" boom "` and a target
panel still logs the trimmed stderr. -/
theorem c9_stderr_logging_witness :
    pystrip " boom " ≠ "" ∧
    Event.logWrite (pystrip " boom ") ∈
      (runJiraCaptured ["issue", "list"] true true (.completed "" " boom " 1)).trace :=
  ⟨by decide, c9_stderr_logging ["issue", "list"] true true "" " boom " 1 (by decide)⟩

/-- C6: the Cancel button resolves to no value; the Submit button and
submit-on-enter apply the same normalization, namely: trim the text with
Python `str.strip()`, and resolve to no value when the trimmed text is
empty, else to the trimmed text. -/
theorem c6_prompt_normalization (value : String) :
    cancelResolve = none
  ∧ enterResolve value = submitResolve value
  ∧ submitResolve value = (if pystrip value = "" then none else some (pystrip value)) := by
  refine ⟨rfl, rfl, ?_⟩
  simp [submitResolve, pyOrNone]

/-- Trace equation for the configuration probe when the binary is missing. -/
theorem checkConfiguration_notFound_eq :
    checkConfiguration SubprocessOutcome.notFound
      = [Event.setStatus checkingStatus,
         Event.logWrite ("$ " ++ joinSpace ["jira", "me"]),
         Event.logWrite missingBinaryMessage,
         Event.setConfigured false,
         Event.setStatus notInstalledStatus,
         Event.logWrite installHint] := by
  decide

/-- Trace equation for the configuration probe on exit code 0: the probe's
stripped stdout is logged once by the runner's no-target routing and once
more by `check_configuration` itself. -/
theorem checkConfiguration_zero_eq (so se : String) :
    checkConfiguration (SubprocessOutcome.completed so se 0)
      = [Event.setStatus checkingStatus,
         Event.logWrite ("$ " ++ joinSpace ["jira", "me"])]
        ++ (if pystrip so ≠ "" then [Event.logWrite (pystrip so)] else [])
        ++ (if pystrip se ≠ "" then [Event.logWrite (pystrip se)] else [])
        ++ ([Event.setConfigured true, Event.setStatus authenticatedStatus]
          ++ (if pystrip so ≠ "" then [Event.logWrite (pystrip so)] else [])) := by
  by_cases h1 : pystrip so = "" <;> by_cases h2 : pystrip se = "" <;>
    simp [checkConfiguration, runJiraCaptured, cmdEcho, CommandResult.ok, h1, h2]

/-- Trace equation for the configuration probe on a non-zero exit code: the
probe's stripped stderr is logged once by the runner and once more by
`check_configuration` itself, with the failure message in between. -/
theorem checkConfiguration_nonzero_eq (so se : String) (rc : Int) (h : rc ≠ 0) :
    checkConfiguration (SubprocessOutcome.completed so se rc)
      = [Event.setStatus checkingStatus,
         Event.logWrite ("$ " ++ joinSpace ["jira", "me"])]
        ++ (if pystrip so ≠ "" then [Event.logWrite (pystrip so)] else [])
        ++ (if pystrip se ≠ "" then [Event.logWrite (pystrip se)] else [])
        ++ ([Event.logWrite (failureMessage ["jira", "me"] rc)]
          ++ ([Event.setConfigured false, Event.setStatus configMissingStatus]
            ++ (if pystrip se ≠ "" then [Event.logWrite (pystrip se)] else []))) := by
  by_cases h1 : pystrip so = "" <;> by_cases h2 : pystrip se = "" <;>
    simp [checkConfiguration, runJiraCaptured, cmdEcho, CommandResult.ok,
      commandFailureEvents, h1, h2, h]

/-- C3: `check_configuration` sets the checking status first, then probes
with `jira me`, and produces exactly the three documented outcomes:
missing binary → not configured, not-installed status, remediation hint
logged; exit 0 → configured, authenticated status, non-empty stdout
logged; non-zero exit → not configured, configuration-missing status,
non-empty stderr logged. -/
theorem c3_check_configuration (so se : String) (rc : Int) (hrc : rc ≠ 0) :
    (statusWrites (checkConfiguration SubprocessOutcome.notFound)
        = [checkingStatus, notInstalledStatus]
      ∧ configuredWrites (checkConfiguration SubprocessOutcome.notFound) = [false]
      ∧ Event.logWrite installHint ∈ checkConfiguration SubprocessOutcome.notFound)
  ∧ (statusWrites (checkConfiguration (SubprocessOutcome.completed so se 0))
        = [checkingStatus, authenticatedStatus]
      ∧ configuredWrites (checkConfiguration (SubprocessOutcome.completed so se 0)) = [true]
      ∧ (pystrip so ≠ "" →
          Event.logWrite (pystrip so) ∈ checkConfiguration (SubprocessOutcome.completed so se 0)))
  ∧ (statusWrites (checkConfiguration (SubprocessOutcome.completed so se rc))
        = [checkingStatus, configMissingStatus]
      ∧ configuredWrites (checkConfiguration (SubprocessOutcome.completed so se rc)) = [false]
      ∧ (pystrip se ≠ "" →
          Event.logWrite (pystrip se) ∈ checkConfiguration (SubprocessOutcome.completed so se rc)))
  ∧ (checkConfiguration SubprocessOutcome.notFound).head? = some (Event.setStatus checkingStatus)
  ∧ (checkConfiguration (SubprocessOutcome.completed so se rc)).head?
      = some (Event.setStatus checkingStatus)
  ∧ (checkConfiguration (SubprocessOutcome.completed so se 0)).head?
      = some (Event.setStatus checkingStatus) := by
  refine ⟨⟨by decide, by decide, by decide⟩, ⟨?_, ?_, ?_⟩, ⟨?_, ?_, ?_⟩, ?_, ?_, ?_⟩
  · rw [checkConfiguration_zero_eq]
    by_cases h1 : pystrip so = "" <;> by_cases h2 : pystrip se = "" <;>
      simp [statusWrites, h1, h2]
  · rw [checkConfiguration_zero_eq]
    by_cases h1 : pystrip so = "" <;> by_cases h2 : pystrip se = "" <;>
      simp [configuredWrites, h1, h2]
  · intro h
    rw [checkConfiguration_zero_eq]
    simp [h]
  · rw [checkConfiguration_nonzero_eq so se rc hrc]
    by_cases h1 : pystrip so = "" <;> by_cases h2 : pystrip se = "" <;>
      simp [statusWrites, h1, h2]
  · rw [checkConfiguration_nonzero_eq so se rc hrc]
    by_cases h1 : pystrip so = "" <;> by_cases h2 : pystrip se = "" <;>
      simp [configuredWrites, h1, h2]
  · intro h
    rw [checkConfiguration_nonzero_eq so se rc hrc]
    simp [h]
  · decide
  · rw [checkConfiguration_nonzero_eq so se rc hrc]
    simp
  · rw [checkConfiguration_zero_eq]
    simp

/-- C3 witness: concrete probe outcomes (`jira me` exiting 0 with stdout
`"Authenticated"`, and exiting 1 with stderr `"bad scope"`). -/
theorem c3_check_configuration_witness :
    (1 : Int) ≠ 0
  ∧ statusWrites (checkConfiguration (SubprocessOutcome.completed "Authenticated" "" 0))
      = [checkingStatus, authenticatedStatus]
  ∧ statusWrites (checkConfiguration (SubprocessOutcome.completed "" "bad scope" 1))
      = [checkingStatus, configMissingStatus]
  ∧ Event.logWrite (pystrip "bad scope")
      ∈ checkConfiguration (SubprocessOutcome.completed "" "bad scope" 1) :=
  ⟨by decide,
   (c3_check_configuration "Authenticated" "" 1 (by decide)).2.1.1,
   (c3_check_configuration "" "bad scope" 1 (by decide)).2.2.1.1,
   (c3_check_configuration "" "bad scope" 1 (by decide)).2.2.1.2.2 (by decide)⟩

/-- C10: on a successful probe with non-empty stripped stdout, the stdout is
logged twice (once by the runner's no-target routing, once by
`check_configuration`); on a failing probe with non-empty stripped stderr,
the stderr is likewise logged twice. -/
theorem c10_probe_double_logging (so se : String) (rc : Int)
    (hso : pystrip so ≠ "") (hse : pystrip se ≠ "") (hrc : rc ≠ 0)
    (h1 : pystrip so ≠ "$ " ++ joinSpace ["jira", "me"])
    (h2 : pystrip so ≠ pystrip se)
    (h3 : pystrip se ≠ "$ " ++ joinSpace ["jira", "me"])
    (h4 : pystrip se ≠ failureMessage ["jira", "me"] rc) :
    (checkConfiguration (SubprocessOutcome.completed so se 0)).count
        (Event.logWrite (pystrip so)) = 2
  ∧ (checkConfiguration (SubprocessOutcome.completed so se rc)).count
        (Event.logWrite (pystrip se)) = 2 := by
  constructor
  · rw [checkConfiguration_zero_eq]
    simp [hso, hse, List.count_append, List.count_cons, h1, h2]
  · rw [checkConfiguration_nonzero_eq so se rc hrc]
    simp [hso, hse, List.count_append, List.count_cons, h3, Ne.symm h2, h4]

/-- C10 witness: with stdout `"OUT"`, stderr `"ERR"` and exit code 1, both
double-logging counts are 2. -/
theorem c10_probe_double_logging_witness :
    (checkConfiguration (SubprocessOutcome.completed "OUT" "ERR" 0)).count
        (Event.logWrite (pystrip "OUT")) = 2
  ∧ (checkConfiguration (SubprocessOutcome.completed "OUT" "ERR" 1)).count
        (Event.logWrite (pystrip "ERR")) = 2 :=
  c10_probe_double_logging "OUT" "ERR" 1 (by decide) (by decide) (by decide)
    (by decide) (by decide) (by decide) (by decide)

/-- C8: `display_output` on an empty/whitespace-only string shows exactly
`"No data returned."`; on already-trimmed non-empty text it replaces the
panel content with the text's constituent lines (in particular
`"ISSUE-1\nISSUE-2"` gives the two lines `"ISSUE-1"`, `"ISSUE-2"`); and
`show_message` on the empty string shows a single empty placeholder
line. -/
theorem c8_display_output (s : String) (h : pystrip s = s) (hne : s ≠ "") :
    displayOutputLines s = pysplitlines s
  ∧ displayOutputLines "ISSUE-1\nISSUE-2" = ["ISSUE-1", "ISSUE-2"]
  ∧ (∀ t, pystrip t = "" → displayOutputLines t = ["No data returned."])
  ∧ showMessageLines "" = [""] := by
  refine ⟨?_, by decide, ?_, by decide⟩
  · have hnn := pysplitlines_ne_nil s hne
    have hb : (pystrip s == "") = false := by
      rw [h]
      exact beq_eq_false_iff_ne.mpr hne
    unfold displayOutputLines
    rw [hb]
    simp only [Bool.false_eq_true, if_false, h]
    unfold showMessageLines
    cases hl : pysplitlines s with
    | nil => exact absurd hl hnn
    | cons a as => simp
  · intro t ht
    simp only [displayOutputLines, ht]
    decide

/-- C8 witness: the claim's concrete two-line input. -/
theorem c8_display_output_witness :
    pystrip "ISSUE-1\nISSUE-2" = "ISSUE-1\nISSUE-2"
  ∧ ("ISSUE-1\nISSUE-2" : String) ≠ ""
  ∧ displayOutputLines "ISSUE-1\nISSUE-2" = pysplitlines "ISSUE-1\nISSUE-2"
  ∧ displayOutputLines " " = ["No data returned."] :=
  ⟨by decide, by decide,
   (c8_display_output "ISSUE-1\nISSUE-2" (by decide) (by decide)).1,
   (c8_display_output "ISSUE-1\nISSUE-2" (by decide) (by decide)).2.2.1 " " (by decide)⟩

/-- C1: for a successful captured run (exit code 0) with non-empty stripped
stdout, the full trace shows the stdout routed to the target panel via
`display_output` when a target was supplied, and appended to the activity
log otherwise; with a target (and barring string collisions with the
command echo and stderr) no `_log` call receives the stdout. -/
theorem c1_stdout_routing (args : List String) (logCmd : Bool) (so se : String)
    (h : pystrip so ≠ "") :
    (runJiraCaptured args logCmd true (SubprocessOutcome.completed so se 0)).trace
        = cmdEcho ("jira" :: args) logCmd
          ++ [Event.panelDisplayOutput (pystrip so)]
          ++ (if pystrip se ≠ "" then [Event.logWrite (pystrip se)] else [])
  ∧ (runJiraCaptured args logCmd false (SubprocessOutcome.completed so se 0)).trace
        = cmdEcho ("jira" :: args) logCmd
          ++ [Event.logWrite (pystrip so)]
          ++ (if pystrip se ≠ "" then [Event.logWrite (pystrip se)] else [])
  ∧ (pystrip so ≠ "$ " ++ joinSpace ("jira" :: args) → pystrip so ≠ pystrip se →
      Event.logWrite (pystrip so) ∉
        (runJiraCaptured args logCmd true (SubprocessOutcome.completed so se 0)).trace) := by
  refine ⟨?_, ?_, ?_⟩
  · simp [runJiraCaptured, CommandResult.ok, h]
  · simp [runJiraCaptured, CommandResult.ok, h]
  · intro h1 h2
    cases logCmd <;> by_cases h3 : pystrip se = "" <;>
      simp [runJiraCaptured, CommandResult.ok, cmdEcho, h, h1, h2, h3]

/-- C1 witness: a successful `issue list` run with stdout and stderr. -/
theorem c1_stdout_routing_witness :
    pystrip "ISSUE-1\n" ≠ ""
  ∧ (runJiraCaptured ["issue", "list"] true false
        (SubprocessOutcome.completed "ISSUE-1\n" "warn" 0)).trace
      = cmdEcho ["jira", "issue", "list"] true
          ++ [Event.logWrite (pystrip "ISSUE-1\n")]
          ++ (if pystrip "warn" ≠ "" then [Event.logWrite (pystrip "warn")] else [])
  ∧ Event.logWrite (pystrip "ISSUE-1\n") ∉
      (runJiraCaptured ["issue", "list"] true true
        (SubprocessOutcome.completed "ISSUE-1\n" "warn" 0)).trace :=
  ⟨by decide,
   (c1_stdout_routing ["issue", "list"] true "ISSUE-1\n" "warn" (by decide)).2.1,
   (c1_stdout_routing ["issue", "list"] true "ISSUE-1\n" "warn" (by decide)).2.2
     (by decide) (by decide)⟩

/-- C2: for a captured run with non-zero exit code, the trace ends with the
failure handling: the message `Command '<joined argv>' exited with code
<code>` is logged, the target panel's `show_error` is invoked exactly once
with that message when a target was supplied (never otherwise), and no
other text is ever passed to `show_error`. -/
theorem c2_failure_handling (args : List String) (logCmd hasTarget : Bool)
    (so se : String) (rc : Int) (h : rc ≠ 0) :
    (runJiraCaptured args logCmd hasTarget (SubprocessOutcome.completed so se rc)).trace
        = cmdEcho ("jira" :: args) logCmd
          ++ (if pystrip so ≠ "" then
                (if hasTarget then [Event.panelDisplayOutput (pystrip so)]
                 else [Event.logWrite (pystrip so)])
              else [])
          ++ (if pystrip se ≠ "" then [Event.logWrite (pystrip se)] else [])
          ++ commandFailureEvents ("jira" :: args) rc hasTarget
  ∧ Event.logWrite (failureMessage ("jira" :: args) rc) ∈
      (runJiraCaptured args logCmd hasTarget (SubprocessOutcome.completed so se rc)).trace
  ∧ ((runJiraCaptured args logCmd hasTarget (SubprocessOutcome.completed so se rc)).trace).count
        (Event.panelShowError (failureMessage ("jira" :: args) rc))
      = (if hasTarget then 1 else 0)
  ∧ (∀ s, Event.panelShowError s ∈
        (runJiraCaptured args logCmd hasTarget (SubprocessOutcome.completed so se rc)).trace →
      s = failureMessage ("jira" :: args) rc) := by
  have hok : (CommandResult.ok ⟨"jira" :: args, pystrip so, pystrip se, rc⟩) = false := by
    simp [CommandResult.ok, h]
  refine ⟨?_, ?_, ?_, ?_⟩
  · simp [runJiraCaptured, CommandResult.ok, h]
  · simp [runJiraCaptured, CommandResult.ok, commandFailureEvents, h]
  · cases logCmd <;> cases hasTarget <;>
      by_cases h1 : pystrip so = "" <;> by_cases h2 : pystrip se = "" <;>
      simp [runJiraCaptured, CommandResult.ok, commandFailureEvents, cmdEcho,
        List.count_append, List.count_cons, h, h1, h2]
  · intro s
    cases logCmd <;> cases hasTarget <;>
      by_cases h1 : pystrip so = "" <;> by_cases h2 : pystrip se = "" <;>
      simp [runJiraCaptured, CommandResult.ok, commandFailureEvents, cmdEcho,
        h, h1, h2]

/-- C2 witness: a failing `issue list` run with a target panel. -/
theorem c2_failure_handling_witness :
    (1 : Int) ≠ 0
  ∧ Event.logWrite (failureMessage ["jira", "issue", "list"] 1) ∈
      (runJiraCaptured ["issue", "list"] true true
        (SubprocessOutcome.completed "" "boom" 1)).trace
  ∧ ((runJiraCaptured ["issue", "list"] true true
        (SubprocessOutcome.completed "" "boom" 1)).trace).count
        (Event.panelShowError (failureMessage ["jira", "issue", "list"] 1)) = 1 := by
  refine ⟨by decide, (c2_failure_handling ["issue", "list"] true true "" "boom" 1 (by decide)).2.1, ?_⟩
  have hc := (c2_failure_handling ["issue", "list"] true true "" "boom" 1 (by decide)).2.2.1
  simpa using hc

/-- Computation rule: `statusWrites` over a concatenation. -/
@[simp] theorem statusWrites_append (l1 l2 : List Event) :
    statusWrites (l1 ++ l2) = statusWrites l1 ++ statusWrites l2 :=
  List.filterMap_append l1 l2 _

/-- Computation rule: `statusWrites` of the empty trace. -/
@[simp] theorem statusWrites_nil : statusWrites [] = [] := rfl

/-- Log writes contribute nothing to `statusWrites`. -/
@[simp] theorem statusWrites_logWrite (s : String) (l : List Event) :
    statusWrites (Event.logWrite s :: l) = statusWrites l := rfl

/-- Panel output contributes nothing to `statusWrites`. -/
@[simp] theorem statusWrites_panelDisplayOutput (s : String) (l : List Event) :
    statusWrites (Event.panelDisplayOutput s :: l) = statusWrites l := rfl

/-- Panel errors contribute nothing to `statusWrites`. -/
@[simp] theorem statusWrites_panelShowError (s : String) (l : List Event) :
    statusWrites (Event.panelShowError s :: l) = statusWrites l := rfl

/-- Panel messages contribute nothing to `statusWrites`. -/
@[simp] theorem statusWrites_panelShowMessage (s : String) (l : List Event) :
    statusWrites (Event.panelShowMessage s :: l) = statusWrites l := rfl

/-- Status writes are collected by `statusWrites`. -/
@[simp] theorem statusWrites_setStatus (s : String) (l : List Event) :
    statusWrites (Event.setStatus s :: l) = s :: statusWrites l := rfl

/-- Configured-flag writes contribute nothing to `statusWrites`. -/
@[simp] theorem statusWrites_setConfigured (b : Bool) (l : List Event) :
    statusWrites (Event.setConfigured b :: l) = statusWrites l := rfl

/-- The command runner itself never writes to the status widget. -/
theorem statusWrites_runJiraCaptured (args : List String)
    (logCmd hasTarget : Bool) (out : SubprocessOutcome) :
    statusWrites (runJiraCaptured args logCmd hasTarget out).trace = [] := by
  cases out <;>
    simp only [runJiraCaptured, cmdEcho, missingBinaryEvents, commandFailureEvents] <;>
    split_ifs <;> simp

/-- The search action never writes to the status widget. -/
theorem statusWrites_actionSearch (q : Option String) (out : SubprocessOutcome) :
    statusWrites (actionSearch q out).trace = [] := by
  cases q with
  | none => rfl
  | some query =>
      by_cases hq : (query == "") = true
      · simp [actionSearch, pyTruthy, hq, statusWrites]
      · have hqb : (query == "") = false := by
          exact (Bool.not_eq_true _).mp hq
        simp [actionSearch, pyTruthy, hqb, statusWrites_runJiraCaptured]

/-- The view-issue action never writes to the status widget. -/
theorem statusWrites_actionViewIssue (k : Option String) (out : SubprocessOutcome) :
    statusWrites (actionViewIssue k out).trace = [] := by
  cases k with
  | none => rfl
  | some key =>
      by_cases hk : (key == "") = true
      · simp [actionViewIssue, pyTruthy, hk, statusWrites]
      · have hkb : (key == "") = false := (Bool.not_eq_true _).mp hk
        simp [actionViewIssue, pyTruthy, hkb, statusWrites_runJiraCaptured]

/-- The comment action never writes to the status widget. -/
theorem statusWrites_actionCommentIssue (k b : Option String)
    (out : SubprocessOutcome) :
    statusWrites (actionCommentIssue k b out).trace = [] := by
  cases k with
  | none => rfl
  | some key =>
      by_cases hk : (key == "") = true
      · simp [actionCommentIssue, pyTruthy, hk, statusWrites]
      · have hkb : (key == "") = false := (Bool.not_eq_true _).mp hk
        cases b with
        | none => simp [actionCommentIssue, pyTruthy, hkb, statusWrites]
        | some body =>
            by_cases hb : (body == "") = true
            · simp [actionCommentIssue, pyTruthy, hkb, hb, statusWrites]
            · have hbb : (body == "") = false := (Bool.not_eq_true _).mp hb
              cases out with
              | notFound =>
                  simp [actionCommentIssue, pyTruthy, hkb, hbb, runJiraCaptured,
                    cmdEcho, missingBinaryEvents]
              | completed so se rc =>
                  simp only [actionCommentIssue, pyTruthy, hkb, hbb, Bool.not_false,
                    runJiraCaptured, cmdEcho, commandFailureEvents]
                  split_ifs <;> simp

/-- The transition action never writes to the status widget. -/
theorem statusWrites_actionTransitionIssue (k s : Option String)
    (out : SubprocessOutcome) :
    statusWrites (actionTransitionIssue k s out).trace = [] := by
  cases k with
  | none => rfl
  | some key =>
      by_cases hk : (key == "") = true
      · simp [actionTransitionIssue, pyTruthy, hk, statusWrites]
      · have hkb : (key == "") = false := (Bool.not_eq_true _).mp hk
        cases s with
        | none => simp [actionTransitionIssue, pyTruthy, hkb, statusWrites]
        | some st =>
            by_cases hs : (st == "") = true
            · simp [actionTransitionIssue, pyTruthy, hkb, hs, statusWrites]
            · have hsb : (st == "") = false := (Bool.not_eq_true _).mp hs
              cases out with
              | notFound =>
                  simp [actionTransitionIssue, pyTruthy, hkb, hsb, runJiraCaptured,
                    cmdEcho, missingBinaryEvents]
              | completed so se rc =>
                  simp only [actionTransitionIssue, pyTruthy, hkb, hsb, Bool.not_false,
                    runJiraCaptured, cmdEcho, commandFailureEvents]
                  split_ifs <;> simp

/-- C4 (counterexample): the view-issue action hitting a missing binary
logs the diagnostic and shows the panel error, but never touches the
configuration status (or the configured flag) — contradicting the claim
that every `BinaryNotFound` failure sets the status to indicate the tool
is not installed. -/
theorem c4_counterexample :
    (actionViewIssue (some "ABC-1") SubprocessOutcome.notFound).trace
        = [Event.panelShowMessage "Loading issue ABC-1…",
           Event.logWrite "$ jira issue view ABC-1 --plain",
           Event.logWrite missingBinaryMessage,
           Event.panelShowError missingBinaryMessage]
  ∧ statusWrites (actionViewIssue (some "ABC-1") SubprocessOutcome.notFound).trace = []
  ∧ configuredWrites (actionViewIssue (some "ABC-1") SubprocessOutcome.notFound).trace = [] := by
  refine ⟨by decide, by decide, by decide⟩

/-- C4 (amended): a `BinaryNotFound` failure always logs the diagnostic and
shows a panel error exactly when a target was supplied; but only the
configuration probe (`check_configuration`) additionally sets the status
to indicate the tool is not installed — the prompt-driven actions never
write the status on that (or any) path. -/
theorem c4_missing_binary_amended (args : List String) (logCmd hasTarget : Bool)
    (k q b s : Option String) (out : SubprocessOutcome) :
    (runJiraCaptured args logCmd hasTarget SubprocessOutcome.notFound).trace
        = cmdEcho ("jira" :: args) logCmd
          ++ ([Event.logWrite missingBinaryMessage]
            ++ (if hasTarget then [Event.panelShowError missingBinaryMessage] else []))
  ∧ statusWrites (runJiraCaptured args logCmd hasTarget SubprocessOutcome.notFound).trace = []
  ∧ statusWrites (checkConfiguration SubprocessOutcome.notFound)
      = [checkingStatus, notInstalledStatus]
  ∧ statusWrites (actionViewIssue k out).trace = []
  ∧ statusWrites (actionSearch q out).trace = []
  ∧ statusWrites (actionCommentIssue k b out).trace = []
  ∧ statusWrites (actionTransitionIssue k s out).trace = [] :=
  ⟨by simp [runJiraCaptured, missingBinaryEvents],
   statusWrites_runJiraCaptured args logCmd hasTarget SubprocessOutcome.notFound,
   by decide,
   statusWrites_actionViewIssue k out,
   statusWrites_actionSearch q out,
   statusWrites_actionCommentIssue k b out,
   statusWrites_actionTransitionIssue k s out⟩

/-- A falsy search prompt aborts the action entirely. -/
theorem actionSearch_abort (k : Option String) (out : SubprocessOutcome)
    (hk : pyTruthy k = false) : actionSearch k out = ⟨1, [], []⟩ := by
  cases k with
  | none => rfl
  | some s =>
      have hs : (s == "") = true := by simpa [pyTruthy] using hk
      simp [actionSearch, pyTruthy, hs]

/-- A falsy view-issue prompt aborts the action entirely. -/
theorem actionViewIssue_abort (k : Option String) (out : SubprocessOutcome)
    (hk : pyTruthy k = false) : actionViewIssue k out = ⟨1, [], []⟩ := by
  cases k with
  | none => rfl
  | some s =>
      have hs : (s == "") = true := by simpa [pyTruthy] using hk
      simp [actionViewIssue, pyTruthy, hs]

/-- A falsy first (key) prompt aborts the comment action before the second
prompt. -/
theorem actionCommentIssue_abort1 (k b : Option String) (out : SubprocessOutcome)
    (hk : pyTruthy k = false) : actionCommentIssue k b out = ⟨1, [], []⟩ := by
  cases k with
  | none => rfl
  | some s =>
      have hs : (s == "") = true := by simpa [pyTruthy] using hk
      simp [actionCommentIssue, pyTruthy, hs]

/-- A falsy second (body) prompt aborts the comment action before any
command. -/
theorem actionCommentIssue_abort2 (key : String) (b : Option String)
    (out : SubprocessOutcome) (hkey : key ≠ "") (hb : pyTruthy b = false) :
    actionCommentIssue (some key) b out = ⟨2, [], []⟩ := by
  have hkb : (key == "") = false := beq_eq_false_iff_ne.mpr hkey
  cases b with
  | none => simp [actionCommentIssue, pyTruthy, hkb]
  | some t =>
      have ht : (t == "") = true := by simpa [pyTruthy] using hb
      simp [actionCommentIssue, pyTruthy, hkb, ht]

/-- A falsy first (key) prompt aborts the transition action before the
second prompt. -/
theorem actionTransitionIssue_abort1 (k s : Option String) (out : SubprocessOutcome)
    (hk : pyTruthy k = false) : actionTransitionIssue k s out = ⟨1, [], []⟩ := by
  cases k with
  | none => rfl
  | some t =>
      have ht : (t == "") = true := by simpa [pyTruthy] using hk
      simp [actionTransitionIssue, pyTruthy, ht]

/-- A falsy second (state) prompt aborts the transition action before any
command. -/
theorem actionTransitionIssue_abort2 (key : String) (s : Option String)
    (out : SubprocessOutcome) (hkey : key ≠ "") (hs : pyTruthy s = false) :
    actionTransitionIssue (some key) s out = ⟨2, [], []⟩ := by
  have hkb : (key == "") = false := beq_eq_false_iff_ne.mpr hkey
  cases s with
  | none => simp [actionTransitionIssue, pyTruthy, hkb]
  | some t =>
      have ht : (t == "") = true := by simpa [pyTruthy] using hs
      simp [actionTransitionIssue, pyTruthy, hkb, ht]

/-- C7: in every prompt chain, a prompt resolving to no value (cancel or
empty) aborts the whole action: only the prompts before and including the
failing one are opened, no subprocess is invoked, and the trace is empty —
no log or panel write from the command path occurs. -/
theorem c7_prompt_chain_abort (k b : Option String) (out : SubprocessOutcome)
    (key : String)
    (hk : pyTruthy k = false) (hb : pyTruthy b = false) (hkey : key ≠ "") :
    actionSearch k out = ⟨1, [], []⟩
  ∧ actionViewIssue k out = ⟨1, [], []⟩
  ∧ actionCommentIssue k b out = ⟨1, [], []⟩
  ∧ actionTransitionIssue k b out = ⟨1, [], []⟩
  ∧ actionCommentIssue (some key) b out = ⟨2, [], []⟩
  ∧ actionTransitionIssue (some key) b out = ⟨2, [], []⟩ :=
  ⟨actionSearch_abort k out hk,
   actionViewIssue_abort k out hk,
   actionCommentIssue_abort1 k b out hk,
   actionTransitionIssue_abort1 k b out hk,
   actionCommentIssue_abort2 key b out hkey hb,
   actionTransitionIssue_abort2 key b out hkey hb⟩

/-- C7 witness: cancelled prompts (and a whitespace-only submission, which
the dialog already normalizes to no value) abort concretely. -/
theorem c7_prompt_chain_abort_witness :
    pyTruthy none = false
  ∧ ("ABC-1" : String) ≠ ""
  ∧ actionSearch none (SubprocessOutcome.completed "x" "" 0) = ⟨1, [], []⟩
  ∧ actionCommentIssue (some "ABC-1") none (SubprocessOutcome.completed "x" "" 0)
      = ⟨2, [], []⟩ :=
  ⟨by decide, by decide,
   (c7_prompt_chain_abort none none (SubprocessOutcome.completed "x" "" 0) "ABC-1"
      (by decide) (by decide) (by decide)).1,
   (c7_prompt_chain_abort none none (SubprocessOutcome.completed "x" "" 0) "ABC-1"
      (by decide) (by decide) (by decide)).2.2.2.2.1⟩
